import Mathlib

/-!
Verification of the interview-practice video-analysis pipeline
(cloud-function-video-analysis/main.py) against its specification.

Numbers are modelled as rationals; the numpy population standard
deviation is modelled as the real square root of the rational variance.
Branch failure (a Python exception converted to an error dictionary) is
modelled by `Option`: `none` stands for a result dictionary that carries
only an error marker.
-/

/-- The fixed module-level filler-word list FILLER_WORDS. -/
def fillerWords : List String :=
  ["um", "uh", "ah", "like", "you know", "so", "well", "actually", "basically", "literally"]

/-- The characters removed by the Python call strip with the argument
made of a period, a comma, an exclamation mark and a question mark. -/
def isPunct (c : Char) : Bool :=
  c == '.' || c == ',' || c == '!' || c == '?'

/-- Python str.strip removes the given characters from both ends. -/
def stripPunct (s : String) : String :=
  ⟨((s.data.dropWhile isPunct).reverse.dropWhile isPunct).reverse⟩

/-- Python str.lower, mapping every character to lower case. -/
def pyLower (s : String) : String :=
  ⟨s.data.map Char.toLower⟩

/-- word_info.word.lower().strip of punctuation, as applied at line 111. -/
def normalizeToken (w : String) : String :=
  stripPunct (pyLower w)

/-- Mean of a list of rationals (sum / len; 0 for the empty list because
rational division by zero is zero). -/
def listMean (l : List ℚ) : ℚ :=
  l.sum / l.length

/-- Population variance, the mean squared deviation from the mean. -/
def listVariance (l : List ℚ) : ℚ :=
  ((l.map (fun x => (x - listMean l) ^ 2)).sum) / l.length

/-- numpy population standard deviation, the square root of the
population variance. -/
noncomputable def np_std (l : List ℚ) : ℝ :=
  Real.sqrt (listVariance l)

/-- Python max over a list of values; the empty case never arises at the
call sites, which all guard on a non-empty list. -/
def listMax : List ℚ → ℚ
  | [] => 0
  | x :: xs => xs.foldl max x

/-- Python min over a list of values; the empty case never arises at the
call sites. -/
def listMin : List ℚ → ℚ
  | [] => 0
  | x :: xs => xs.foldl min x

/-- Python int() applied to a number: truncation toward zero. -/
def pyInt (q : ℚ) : ℤ :=
  if 0 ≤ q then ⌊q⌋ else ⌈q⌉

/-- One entry of the word_timestamps list built by analyze_speech:
the stored word is already lowercased and punctuation-stripped. -/
structure WordTiming where
  word : String
  start_time : ℚ
  end_time : ℚ
  duration : ℚ
deriving DecidableEq

instance : Inhabited WordTiming := ⟨⟨"", 0, 0, 0⟩⟩

/-- One word of a recognition alternative, as delivered by the
transcription service (raw word plus start and end offsets). -/
structure RecWord where
  word : String
  start_time : ℚ
  end_time : ℚ
deriving DecidableEq

/-- One recognition result: the transcript of its first alternative and
the word list of that alternative. -/
structure RecResult where
  transcript : String
  words : List RecWord
deriving DecidableEq

/-- WPM of the sliding window of 10 words starting at index i
(lines 370 to 373): duration from the start of the first word of the
window to the end of its last word, wpm = 10 / duration * 60 when the
duration is positive. -/
def windowWpm (word_timestamps : List WordTiming) (i : ℕ) : ℚ :=
  let window := (word_timestamps.drop i).take 10
  let duration := window.getLastI.end_time - window.headI.start_time
  if 0 < duration then (10 / duration) * 60 else 0

/-- The numeric fields returned by analyze_pacing_variations when there
are enough words. -/
structure PacingStats where
  average_wpm : ℚ
  wpm_standard_deviation : ℝ
  pacing_consistency : ℝ
  wpm_timeline : List ℚ

/-- analyze_pacing_variations (lines 360 to 384): with fewer than 10
word timestamps it returns an insufficient-data error dictionary
(modelled as none); otherwise it returns the window statistics. -/
noncomputable def analyze_pacing_variations
    (word_timestamps : List WordTiming) : Option PacingStats :=
  if word_timestamps.length < 10 then none
  else
    let window_wpms :=
      (List.range (word_timestamps.length - 10 + 1)).map (windowWpm word_timestamps)
    let avg_wpm := listMean window_wpms
    some
      { average_wpm := avg_wpm
        wpm_standard_deviation := np_std window_wpms
        pacing_consistency :=
          if 0 < avg_wpm then max 0 (1 - np_std window_wpms / (avg_wpm : ℝ)) else 0
        wpm_timeline := window_wpms }

/-- One element of the filler-word details list (lines 386 to 396). -/
structure FillerDetail where
  word : String
  timestamp : ℚ
  duration : ℚ
deriving DecidableEq

/-- get_filler_word_details: the stored words that are filler words,
with their start time and duration, in transcript order. -/
def get_filler_word_details (word_timestamps : List WordTiming) : List FillerDetail :=
  (word_timestamps.filter (fun wd => fillerWords.contains wd.word)).map
    (fun wd => ⟨wd.word, wd.start_time, wd.duration⟩)

/-- calculate_clarity_score (lines 398 to 409). -/
def calculate_clarity_score (filler_percentage words_per_minute : ℚ) : ℚ :=
  let ideal_wpm : ℚ := 155
  let wpm_score := max 0 (1 - |words_per_minute - ideal_wpm| / 100)
  let filler_score := max 0 (1 - filler_percentage / 20)
  let clarity_score := wpm_score * 0.6 + filler_score * 0.4
  min 1 (max 0 clarity_score)

/-- The success dictionary returned by analyze_speech (lines 135 to 148). -/
structure SpeechResult where
  transcript : String
  total_words : ℕ
  total_duration_seconds : ℚ
  words_per_minute : ℚ
  filler_count : ℕ
  filler_percentage : ℚ
  filler_details : List FillerDetail
  pacing_analysis : Option PacingStats
  clarity_score : ℚ
  word_timestamps : List WordTiming

/-- The pure core of analyze_speech (lines 100 to 148): the input is the
list of recognition results (first alternative each) delivered by the
transcription service; the word loop lowercases and strips each word,
stores it with its offsets, counts the total and the fillers; then the
duration, wpm, filler percentage, pacing and clarity metrics follow. -/
noncomputable def analyze_speech (results : List RecResult) : SpeechResult :=
  let word_timestamps : List WordTiming :=
    results.flatMap (fun r =>
      r.words.map (fun w =>
        ⟨normalizeToken w.word, w.start_time, w.end_time, w.end_time - w.start_time⟩))
  let total_words := word_timestamps.length
  let filler_word_count := word_timestamps.countP (fun wt => fillerWords.contains wt.word)
  let full_transcript := String.intercalate " " (results.map RecResult.transcript)
  let total_duration :=
    if word_timestamps.isEmpty then 0
    else word_timestamps.getLastI.end_time - word_timestamps.headI.start_time
  let words_per_minute :=
    if 0 < total_duration then ((total_words : ℚ) / total_duration) * 60 else 0
  let filler_percentage :=
    if 0 < total_words then ((filler_word_count : ℚ) / (total_words : ℚ)) * 100 else 0
  { transcript := full_transcript
    total_words := total_words
    total_duration_seconds := total_duration
    words_per_minute := words_per_minute
    filler_count := filler_word_count
    filler_percentage := filler_percentage
    filler_details := get_filler_word_details word_timestamps
    pacing_analysis := analyze_pacing_variations word_timestamps
    clarity_score := calculate_clarity_score filler_percentage words_per_minute
    word_timestamps := word_timestamps }

/-- estimate_eye_contact (lines 339 to 358). -/
def estimate_eye_contact (pan_angle tilt_angle roll_angle : ℚ) : ℚ :=
  let ideal_pan : ℚ := 0
  let ideal_tilt : ℚ := 0
  let ideal_roll : ℚ := 0
  let pan_deviation := |pan_angle - ideal_pan|
  let tilt_deviation := |tilt_angle - ideal_tilt|
  let roll_deviation := |roll_angle - ideal_roll|
  let weighted_deviation := pan_deviation * 0.6 + tilt_deviation * 0.3 + roll_deviation * 0.1
  let max_acceptable_deviation : ℚ := 30
  max 0 (1 - weighted_deviation / max_acceptable_deviation)

/-- The mapping of emotion names to likelihood scores built for one
frame with a detected face (lines 192 to 200). -/
structure Emotions where
  joy : ℚ
  sorrow : ℚ
  anger : ℚ
  surprise : ℚ
  under_exposed : ℚ
  blurred : ℚ
  headwear : ℚ
deriving DecidableEq

/-- Dictionary access on the emotions mapping by key name. -/
def Emotions.get (e : Emotions) : String → ℚ
  | "joy" => e.joy
  | "sorrow" => e.sorrow
  | "anger" => e.anger
  | "surprise" => e.surprise
  | "under_exposed" => e.under_exposed
  | "blurred" => e.blurred
  | "headwear" => e.headwear
  | _ => 0

/-- One entry of the emotion timeline (lines 202 to 206). -/
structure EmotionFrame where
  timestamp : ℚ
  emotions : Emotions
  detection_confidence : ℚ
deriving DecidableEq

/-- The per-emotion statistics dictionary (lines 421 to 426). -/
structure EmotionStats where
  average : ℚ
  max : ℚ
  min : ℚ
  std : ℝ

/-- The emotion keys that calculate_emotion_statistics iterates over
(line 416). -/
def emotionKeys : List String :=
  ["joy", "sorrow", "anger", "surprise"]

/-- calculate_emotion_statistics (lines 411 to 428): an empty timeline
gives an empty dictionary; otherwise one statistics entry per key of
emotionKeys, in that order. -/
noncomputable def calculate_emotion_statistics
    (emotion_timeline : List EmotionFrame) : List (String × EmotionStats) :=
  if emotion_timeline.isEmpty then []
  else
    emotionKeys.map (fun emotion =>
      let values := emotion_timeline.map (fun frame => frame.emotions.get emotion)
      (emotion, ⟨listMean values, listMax values, listMin values, np_std values⟩))

/-- The success dictionary returned by analyze_facial_expressions
(lines 214 to 219). -/
structure FacialResult where
  emotion_timeline : List EmotionFrame
  emotion_statistics : List (String × EmotionStats)
  total_frames_analyzed : ℕ
  average_detection_confidence : ℚ

/-- The pure core of analyze_facial_expressions (lines 214 to 219): the
input is the emotion timeline built from the frames with a detected
face. -/
noncomputable def analyze_facial_expressions
    (emotion_timeline : List EmotionFrame) : FacialResult :=
  { emotion_timeline := emotion_timeline
    emotion_statistics := calculate_emotion_statistics emotion_timeline
    total_frames_analyzed := emotion_timeline.length
    average_detection_confidence :=
      if emotion_timeline.isEmpty then 0
      else (emotion_timeline.map (fun frame => frame.detection_confidence)).sum /
        (emotion_timeline.length : ℚ) }

/-- The success dictionary returned by analyze_confidence_metrics
(lines 288 to 294), reduced to its numeric fields. -/
structure ConfidenceResult where
  average_eye_contact_score : ℚ
  eye_contact_consistency : ℚ
  head_stability_score : ℚ
  confidence_score : ℚ
deriving DecidableEq

/-- score_to_grade (lines 494 to 519). -/
def score_to_grade (score : ℚ) : String :=
  if 0.9 ≤ score then "A+"
  else if 0.85 ≤ score then "A"
  else if 0.8 ≤ score then "A-"
  else if 0.75 ≤ score then "B+"
  else if 0.7 ≤ score then "B"
  else if 0.65 ≤ score then "B-"
  else if 0.6 ≤ score then "C+"
  else if 0.55 ≤ score then "C"
  else if 0.5 ≤ score then "C-"
  else if 0.45 ≤ score then "D+"
  else if 0.4 ≤ score then "D"
  else "F"

/-- The dictionary returned by calculate_overall_score. -/
structure OverallResult where
  overall_score : ℚ
  component_scores : List (String × ℚ)
  grade : String
deriving DecidableEq

/-- calculate_overall_score (lines 467 to 492): a branch whose
dictionary carries only an error marker (none here) contributes no
component; the facial joy component is present only when the statistics
dictionary has a joy entry; the overall score is the mean of the
collected component scores, or the fixed zero result when none were
collected. -/
def calculate_overall_score (speech_analysis : Option SpeechResult)
    (facial_analysis : Option FacialResult)
    (confidence_analysis : Option ConfidenceResult) : OverallResult :=
  let speech_part : List (String × ℚ) :=
    match speech_analysis with
    | some s => [("speech_clarity", s.clarity_score)]
    | none => []
  let facial_part : List (String × ℚ) :=
    match facial_analysis with
    | some f =>
      match f.emotion_statistics.lookup "joy" with
      | some st => [("positivity", st.average)]
      | none => []
    | none => []
  let confidence_part : List (String × ℚ) :=
    match confidence_analysis with
    | some c => [("confidence", c.confidence_score)]
    | none => []
  let scores := speech_part ++ facial_part ++ confidence_part
  if scores.isEmpty then
    { overall_score := 0, component_scores := [], grade := "F" }
  else
    let overall := (scores.map Prod.snd).sum / (scores.length : ℚ)
    { overall_score := overall
      component_scores := scores
      grade := score_to_grade overall }

/-- likelihood_to_score (lines 327 to 337): the fixed ladder from the
six ordinal detection levels to scores, any other level giving 0. -/
def likelihood_to_score (likelihood : ℕ) : ℚ :=
  if likelihood = 0 then 0
  else if likelihood = 1 then 0.1
  else if likelihood = 2 then 0.3
  else if likelihood = 3 then 0.5
  else if likelihood = 4 then 0.7
  else if likelihood = 5 then 0.9
  else 0

/-- The while loop of extract_video_frames (lines 309 to 322): walk the
decoded frames with a running frame_count, keeping the frames whose
index is a multiple of the stride, with timestamp frame_count / fps. -/
def sampleLoop {α : Type} (fps : ℚ) (frame_interval : ℤ) :
    List α → ℕ → List (ℚ × α)
  | [], _ => []
  | f :: rest, frame_count =>
    (if (frame_count : ℤ) % frame_interval = 0 then
      [(((frame_count : ℚ)) / fps, f)] else []) ++
    sampleLoop fps frame_interval rest (frame_count + 1)

/-- extract_video_frames (lines 300 to 325): the input is the decoded
frame sequence and the native frame rate; the stride is int(fps *
interval_seconds), Python truncation. When the stride is 0 and at least
one frame is decoded, the modulo at line 314 raises ZeroDivisionError
(modelled as none); an empty decode returns an empty list without ever
reaching the modulo. -/
def extract_video_frames {α : Type} (frames : List α) (fps : ℚ)
    (interval_seconds : ℚ) : Option (List (ℚ × α)) :=
  let frame_interval := pyInt (fps * interval_seconds)
  if frames.isEmpty then some []
  else if frame_interval = 0 then none
  else some (sampleLoop fps frame_interval frames 0)

/-- Modelled from the spec: the FrameSampler as the spec words it,
with frame stride = round(frame_rate x interval) instead of the
truncation the code performs; used only to compare against
extract_video_frames. -/
def extract_video_frames_spec {α : Type} (frames : List α) (fps : ℚ)
    (interval_seconds : ℚ) : Option (List (ℚ × α)) :=
  let frame_interval := round (fps * interval_seconds)
  if frames.isEmpty then some []
  else if frame_interval = 0 then none
  else some (sampleLoop fps frame_interval frames 0)

/-- A word character for the purpose of a regex word boundary. -/
def isWordChar (c : Char) : Bool :=
  c.isAlphanum || c == '_'

/-- Modelled from the spec: a boundary-anchored, case-insensitive match
of the pattern inside the text at position i, as a whole-word regex
match would find it. -/
def boundaryMatchAt (pat txt : List Char) (i : ℕ) : Bool :=
  (((txt.drop i).take pat.length).map Char.toLower == pat.map Char.toLower) &&
  (decide (i = 0) || !isWordChar (txt.getD (i - 1) ' ')) &&
  (decide (txt.length ≤ i + pat.length) || !isWordChar (txt.getD (i + pat.length) ' '))

/-- Modelled from the spec: the number of boundary-anchored,
case-insensitive matches of pat inside txt. -/
def countBoundaryMatches (pat txt : String) : ℕ :=
  ((List.range txt.data.length).filter (boundaryMatchAt pat.data txt.data)).length

/-- Modelled from the spec: the filler count the spec describes, the
total number of whole-word, case-insensitive, boundary-anchored matches
of each filler word in the transcript. -/
def spec_filler_count (transcript : String) : ℕ :=
  (fillerWords.map (fun f => countBoundaryMatches f transcript)).sum

/-- Modelled from the spec: the list of component scores the spec calls
present, in branch order: the speech clarity score unless the speech
branch carries an error marker, the facial joy average when the joy
statistics entry exists, and the confidence score unless the confidence
branch carries an error marker. -/
def specPresentScores (speech_analysis : Option SpeechResult)
    (facial_analysis : Option FacialResult)
    (confidence_analysis : Option ConfidenceResult) : List ℚ :=
  (speech_analysis.toList.map SpeechResult.clarity_score) ++
  (facial_analysis.toList.flatMap (fun f =>
    ((f.emotion_statistics.lookup "joy").toList.map EmotionStats.average))) ++
  (confidence_analysis.toList.map ConfidenceResult.confidence_score)

/-- A transcription result holding the single word hello spanning one
second. -/
def oneWordInput : List RecResult :=
  [⟨"hello", [⟨"hello", 0, 1⟩]⟩]

/-- A transcription result for the sentence I liked it. -/
def likedInput : List RecResult :=
  [⟨"I liked it", [⟨"I", 0, 1⟩, ⟨"liked", 1, 2⟩, ⟨"it", 2, 3⟩]⟩]

/-- A transcription result for the two words you know. -/
def youKnowInput : List RecResult :=
  [⟨"you know", [⟨"you", 0, 1⟩, ⟨"know", 1, 2⟩]⟩]

/-- A transcription result for the scenario sentence
um so I think uh I did well, one word per second. -/
def scenarioInput : List RecResult :=
  [⟨"um so I think uh I did well",
    [⟨"um", 0, 1⟩, ⟨"so", 1, 2⟩, ⟨"I", 2, 3⟩, ⟨"think", 3, 4⟩,
     ⟨"uh", 4, 5⟩, ⟨"I", 5, 6⟩, ⟨"did", 6, 7⟩, ⟨"well", 7, 8⟩]⟩]

/-- Nine word timestamps, one word per second. -/
def nineWords : List WordTiming :=
  (List.range 9).map (fun i => ⟨"w", (i : ℚ), (i : ℚ) + 1, 1⟩)

/-- Ten word timestamps, one word per second. -/
def tenWords : List WordTiming :=
  (List.range 10).map (fun i => ⟨"w", (i : ℚ), (i : ℚ) + 1, 1⟩)

/-- One emotion frame with full joy, used to probe the statistics. -/
def testFrame : EmotionFrame :=
  ⟨0, ⟨1, 0, 0, 0, 0.5, 0.5, 0.5⟩, 0.9⟩

/-! Helper lemmas: the field equations of analyze_speech. -/

theorem analyze_speech_total_duration (results : List RecResult) :
    (analyze_speech results).total_duration_seconds =
      if (analyze_speech results).word_timestamps.isEmpty then 0
      else (analyze_speech results).word_timestamps.getLastI.end_time -
        (analyze_speech results).word_timestamps.headI.start_time := rfl

theorem analyze_speech_wpm (results : List RecResult) :
    (analyze_speech results).words_per_minute =
      if 0 < (analyze_speech results).total_duration_seconds then
        (((analyze_speech results).total_words : ℚ) /
          (analyze_speech results).total_duration_seconds) * 60
      else 0 := rfl

theorem analyze_speech_filler_percentage (results : List RecResult) :
    (analyze_speech results).filler_percentage =
      if 0 < (analyze_speech results).total_words then
        (((analyze_speech results).filler_count : ℚ) /
          ((analyze_speech results).total_words : ℚ)) * 100
      else 0 := rfl

theorem analyze_speech_clarity (results : List RecResult) :
    (analyze_speech results).clarity_score =
      calculate_clarity_score (analyze_speech results).filler_percentage
        (analyze_speech results).words_per_minute := rfl

/-- C2 counterexample: the claim says a word-timing sequence with fewer than 2 elements
yields total_duration = 0 and words_per_minute = 0; the code only
special-cases the empty sequence, so a single word spanning one second
yields total_duration = 1 and words_per_minute = 60. -/
theorem claim_C2_counterexample :
    (analyze_speech oneWordInput).total_words = 1 ∧
    (analyze_speech oneWordInput).total_duration_seconds = 1 ∧
    (analyze_speech oneWordInput).words_per_minute = 60 := by
  refine ⟨by decide, ?_, ?_⟩ <;>
    norm_num [analyze_speech, oneWordInput, List.getLastI, List.getLastD]

/-- C2 amended: only the empty word-timing sequence forces
total_duration = 0 and words_per_minute = 0; a non-empty sequence gets
total_duration = last end_time minus first start_time, even when it has
a single element. -/
theorem claim_C2_duration_amended (results : List RecResult) :
    ((analyze_speech results).word_timestamps = [] →
      (analyze_speech results).total_duration_seconds = 0 ∧
      (analyze_speech results).words_per_minute = 0) ∧
    ((analyze_speech results).word_timestamps ≠ [] →
      (analyze_speech results).total_duration_seconds =
        (analyze_speech results).word_timestamps.getLastI.end_time -
        (analyze_speech results).word_timestamps.headI.start_time) := by
  constructor
  · intro h
    have hd : (analyze_speech results).total_duration_seconds = 0 := by
      rw [analyze_speech_total_duration, h]
      simp
    refine ⟨hd, ?_⟩
    rw [analyze_speech_wpm, hd]
    norm_num
  · intro h
    rw [analyze_speech_total_duration, if_neg]
    simp [List.isEmpty_iff, h]

theorem claim_C2_duration_amended_witness :
    ((analyze_speech ([] : List RecResult)).total_duration_seconds = 0 ∧
      (analyze_speech ([] : List RecResult)).words_per_minute = 0) ∧
    (analyze_speech oneWordInput).total_duration_seconds =
      (analyze_speech oneWordInput).word_timestamps.getLastI.end_time -
      (analyze_speech oneWordInput).word_timestamps.headI.start_time :=
  ⟨(claim_C2_duration_amended []).1 (by decide),
   (claim_C2_duration_amended oneWordInput).2 (by decide)⟩

/-- C9 counterexample: the claim counts 3 fillers in the scenario sentence; the code, with
its own filler list (which also contains well), counts 4 among the 8
words. -/
theorem claim_C9_counterexample :
    ¬ (analyze_speech scenarioInput).filler_count = 3 := by decide

/-- C9 amended: the scenario sentence um so I think uh I did well has 8
words, of which um, so, uh and well are in the fixed filler list, so
filler_count = 4 and filler_percentage = 50. -/
theorem claim_C9_scenario_amended :
    (analyze_speech scenarioInput).total_words = 8 ∧
    (analyze_speech scenarioInput).filler_count = 4 ∧
    (analyze_speech scenarioInput).filler_percentage = 50 := by
  refine ⟨by decide, by decide, ?_⟩
  rw [analyze_speech_filler_percentage]
  have h1 : (analyze_speech scenarioInput).filler_count = 4 := by decide
  have h2 : (analyze_speech scenarioInput).total_words = 8 := by decide
  rw [h1, h2]
  norm_num

/-- C10: an empty recognition output still yields a success dictionary
with zero counts and clarity_score 0.4, and the overall-score
aggregator counts that 0.4 as a present component. -/
theorem claim_C10_empty_speech :
    (analyze_speech ([] : List RecResult)).total_words = 0 ∧
    (analyze_speech ([] : List RecResult)).words_per_minute = 0 ∧
    (analyze_speech ([] : List RecResult)).filler_count = 0 ∧
    (analyze_speech ([] : List RecResult)).filler_percentage = 0 ∧
    (analyze_speech ([] : List RecResult)).total_duration_seconds = 0 ∧
    (analyze_speech ([] : List RecResult)).clarity_score = 0.4 ∧
    (calculate_overall_score (some (analyze_speech ([] : List RecResult))) none none).component_scores
      = [("speech_clarity", 0.4)] ∧
    (calculate_overall_score (some (analyze_speech ([] : List RecResult))) none none).overall_score
      = 0.4 := by
  refine ⟨by decide, ?_, by decide, ?_, by decide, ?_, ?_, ?_⟩ <;>
    norm_num [analyze_speech, calculate_overall_score, calculate_clarity_score]

/-- For a non-negative filler percentage both component scores lie in
[0, 1], so the final clamp of calculate_clarity_score never acts and
the score is exactly the weighted sum. -/
theorem calculate_clarity_score_unclamped (fp wpm : ℚ) (hfp : 0 ≤ fp) :
    calculate_clarity_score fp wpm =
      max 0 (1 - |wpm - 155| / 100) * 0.6 + max 0 (1 - fp / 20) * 0.4 := by
  have habs : (0 : ℚ) ≤ |wpm - 155| := abs_nonneg _
  have hw0 : (0 : ℚ) ≤ max 0 (1 - |wpm - 155| / 100) := le_max_left _ _
  have hw1 : max 0 (1 - |wpm - 155| / 100) ≤ 1 := by
    apply max_le (by norm_num)
    linarith
  have hf0 : (0 : ℚ) ≤ max 0 (1 - fp / 20) := le_max_left _ _
  have hf1 : max 0 (1 - fp / 20) ≤ 1 := by
    apply max_le (by norm_num)
    linarith
  simp only [calculate_clarity_score]
  rw [max_eq_right (by nlinarith), min_eq_right (by nlinarith)]

/-- C5 counterexample: the claim says the clarity score strictly decreases as
filler_percentage increases at wpm = 155; but from 20 percent upward
the filler component is already floored at 0, so the score is constant:
it is 0.6 both at 20 and at 40. -/
theorem claim_C5_counterexample :
    (20 : ℚ) < 40 ∧
    calculate_clarity_score 20 155 = 0.6 ∧
    calculate_clarity_score 40 155 = 0.6 := by
  norm_num [calculate_clarity_score]

/-- C5 amended: for non-negative filler percentages the clarity score
is the unclamped weighted sum, lies in [0, 1], strictly decreases on
filler percentages up to 20 at wpm = 155, and is constant 0.6 at
wpm = 155 from 20 percent upward. -/
theorem claim_C5_clarity_amended (fp wpm : ℚ) (hfp : 0 ≤ fp) :
    calculate_clarity_score fp wpm =
      max 0 (1 - |wpm - 155| / 100) * 0.6 + max 0 (1 - fp / 20) * 0.4 ∧
    0 ≤ calculate_clarity_score fp wpm ∧
    calculate_clarity_score fp wpm ≤ 1 ∧
    (∀ fp2 : ℚ, fp < fp2 → fp2 ≤ 20 →
      calculate_clarity_score fp2 155 < calculate_clarity_score fp 155) ∧
    (20 ≤ fp → calculate_clarity_score fp 155 = 0.6) := by
  have habs : (0 : ℚ) ≤ |wpm - 155| := abs_nonneg _
  have hw0 : (0 : ℚ) ≤ max 0 (1 - |wpm - 155| / 100) := le_max_left _ _
  have hw1 : max 0 (1 - |wpm - 155| / 100) ≤ 1 := by
    apply max_le (by norm_num)
    linarith
  have hf0 : (0 : ℚ) ≤ max 0 (1 - fp / 20) := le_max_left _ _
  have hf1 : max 0 (1 - fp / 20) ≤ 1 := by
    apply max_le (by norm_num)
    linarith
  have heq := calculate_clarity_score_unclamped fp wpm hfp
  have h155 : ∀ x : ℚ, 0 ≤ x → calculate_clarity_score x 155 =
      0.6 + max 0 (1 - x / 20) * 0.4 := by
    intro x hx
    rw [calculate_clarity_score_unclamped x 155 hx]
    norm_num
  refine ⟨heq, by rw [heq]; nlinarith, by rw [heq]; nlinarith, ?_, ?_⟩
  · intro fp2 hlt hle
    rw [h155 fp hfp, h155 fp2 (by linarith)]
    rw [max_eq_right (by linarith), max_eq_right (by linarith)]
    nlinarith
  · intro h20
    rw [h155 fp hfp, max_eq_left (by linarith)]
    norm_num

theorem claim_C5_clarity_amended_witness :
    calculate_clarity_score 10 155 < calculate_clarity_score 0 155 ∧
    calculate_clarity_score 30 155 = 0.6 ∧
    0 ≤ calculate_clarity_score 5 155 ∧ calculate_clarity_score 5 155 ≤ 1 :=
  ⟨(claim_C5_clarity_amended 0 155 (by norm_num)).2.2.2.1 10 (by norm_num) (by norm_num),
   (claim_C5_clarity_amended 30 155 (by norm_num)).2.2.2.2 (by norm_num),
   (claim_C5_clarity_amended 5 155 (by norm_num)).2.1,
   (claim_C5_clarity_amended 5 155 (by norm_num)).2.2.1⟩

/-- C6: the eye-contact score is 1 exactly when all three head-pose
angles are 0, and it is 0 whenever the weighted deviation
0.6 pan + 0.3 tilt + 0.1 roll (in absolute values) reaches 30. -/
theorem claim_C6_eye_contact (pan_angle tilt_angle roll_angle : ℚ) :
    (estimate_eye_contact pan_angle tilt_angle roll_angle = 1 ↔
      pan_angle = 0 ∧ tilt_angle = 0 ∧ roll_angle = 0) ∧
    (30 ≤ |pan_angle| * 0.6 + |tilt_angle| * 0.3 + |roll_angle| * 0.1 →
      estimate_eye_contact pan_angle tilt_angle roll_angle = 0) := by
  have hp : (0 : ℚ) ≤ |pan_angle| := abs_nonneg _
  have ht : (0 : ℚ) ≤ |tilt_angle| := abs_nonneg _
  have hr : (0 : ℚ) ≤ |roll_angle| := abs_nonneg _
  simp only [estimate_eye_contact, sub_zero]
  constructor
  · constructor
    · intro h
      rcases max_cases (0 : ℚ)
          (1 - (|pan_angle| * 0.6 + |tilt_angle| * 0.3 + |roll_angle| * 0.1) / 30) with
        ⟨heq, hle⟩ | ⟨heq, hlt⟩
      · rw [heq] at h
        norm_num at h
      · rw [heq] at h
        have hzero : |pan_angle| * 0.6 + |tilt_angle| * 0.3 + |roll_angle| * 0.1 = 0 := by
          field_simp at h
          linarith
        refine ⟨abs_eq_zero.mp ?_, abs_eq_zero.mp ?_, abs_eq_zero.mp ?_⟩ <;> linarith
    · rintro ⟨h1, h2, h3⟩
      rw [h1, h2, h3]
      norm_num
  · intro h
    rw [max_eq_left (by linarith)]

theorem claim_C6_eye_contact_witness :
    estimate_eye_contact 50 0 0 = 0 ∧ estimate_eye_contact 0 0 0 = 1 :=
  ⟨(claim_C6_eye_contact 50 0 0).2 (by norm_num),
   (claim_C6_eye_contact 0 0 0).1.mpr ⟨rfl, rfl, rfl⟩⟩

/-- C3 counterexample: the claim says fewer than 11 words yield the insufficient-data
sentinel; the code guard is len < 10, so a sequence of exactly 10 words
(fewer than 11) already gets numeric pacing fields. -/
theorem claim_C3_counterexample :
    tenWords.length < 11 ∧ (analyze_pacing_variations tenWords).isSome = true := by decide

/-- C3 amended: fewer than 10 words yield the insufficient-data
sentinel; 10 or more words yield the sliding window-WPM sequence (one
window per start index, hence length - 9 windows), its mean, its
population standard deviation and the consistency
max(0, 1 - std / mean), or 0 when the mean is not positive. -/
theorem claim_C3_pacing_amended (word_timestamps : List WordTiming) :
    (word_timestamps.length < 10 → analyze_pacing_variations word_timestamps = none) ∧
    (10 ≤ word_timestamps.length →
      analyze_pacing_variations word_timestamps = some
        { average_wpm := listMean
            ((List.range (word_timestamps.length - 10 + 1)).map (windowWpm word_timestamps))
          wpm_standard_deviation := np_std
            ((List.range (word_timestamps.length - 10 + 1)).map (windowWpm word_timestamps))
          pacing_consistency :=
            if 0 < listMean
                ((List.range (word_timestamps.length - 10 + 1)).map (windowWpm word_timestamps))
            then max 0 (1 - np_std
                ((List.range (word_timestamps.length - 10 + 1)).map (windowWpm word_timestamps)) /
              ((listMean ((List.range (word_timestamps.length - 10 + 1)).map
                (windowWpm word_timestamps)) : ℚ) : ℝ))
            else 0
          wpm_timeline :=
            (List.range (word_timestamps.length - 10 + 1)).map (windowWpm word_timestamps) } ∧
      ((List.range (word_timestamps.length - 10 + 1)).map
        (windowWpm word_timestamps)).length = word_timestamps.length - 9) := by
  constructor
  · intro h
    simp [analyze_pacing_variations, h]
  · intro h
    refine ⟨?_, ?_⟩
    · rw [analyze_pacing_variations, if_neg (by omega)]
    · rw [List.length_map, List.length_range]
      omega

theorem claim_C3_pacing_amended_witness :
    analyze_pacing_variations nineWords = none ∧
    ((List.range (tenWords.length - 10 + 1)).map (windowWpm tenWords)).length
      = tenWords.length - 9 :=
  ⟨(claim_C3_pacing_amended nineWords).1 (by decide),
   ((claim_C3_pacing_amended tenWords).2 (by decide)).2⟩

/-- C1: the aggregated component values are exactly the present
component scores (clarity unless the speech branch errored, the joy
average when the joy statistics entry exists, the confidence score
unless the confidence branch errored); the overall score is their
arithmetic mean; and with no present component the result is the fixed
zero record with grade F and no components. -/
theorem claim_C1_overall_mean (s : Option SpeechResult) (f : Option FacialResult)
    (c : Option ConfidenceResult) :
    ((calculate_overall_score s f c).component_scores.map Prod.snd =
      specPresentScores s f c) ∧
    ((calculate_overall_score s f c).overall_score =
      if specPresentScores s f c = [] then 0
      else (specPresentScores s f c).sum / ((specPresentScores s f c).length : ℚ)) ∧
    (specPresentScores s f c = [] →
      calculate_overall_score s f c =
        { overall_score := 0, component_scores := [], grade := "F" }) := by
  rcases s with _ | s <;> rcases c with _ | c <;> rcases f with _ | f <;>
    first
    | (cases h : List.lookup "joy" f.emotion_statistics <;>
        simp [calculate_overall_score, specPresentScores, h])
    | (simp [calculate_overall_score, specPresentScores])

theorem claim_C1_overall_mean_witness :
    calculate_overall_score none none none =
      { overall_score := 0, component_scores := [], grade := "F" } :=
  (claim_C1_overall_mean none none none).2.2 rfl

/-- The filler count of analyze_speech is the number of recognized
words whose lowercased, punctuation-stripped form is in the fixed
filler list. -/
theorem analyze_speech_filler_count (results : List RecResult) :
    (analyze_speech results).filler_count =
      (results.flatMap RecResult.words).countP
        (fun w => fillerWords.contains (normalizeToken w.word)) := by
  show (results.flatMap fun r => r.words.map fun w =>
      (⟨normalizeToken w.word, w.start_time, w.end_time, w.end_time - w.start_time⟩ :
        WordTiming)).countP (fun wt => fillerWords.contains wt.word) = _
  induction results with
  | nil => rfl
  | cons r rs ih =>
    simp only [List.flatMap_cons, List.countP_append, List.countP_map, ih]
    rfl

/-- C4 counterexample: the claim says the filler count equals the number of whole-word,
boundary-anchored matches of each filler word in the transcript. The
code instead compares recognized word tokens one at a time against the
filler list, so the two-word filler entry you know is never counted:
on the transcript you know the boundary-anchored count is 1 while the
code counts 0. -/
theorem claim_C4_counterexample :
    (analyze_speech youKnowInput).filler_count = 0 ∧
    spec_filler_count (analyze_speech youKnowInput).transcript = 1 := by decide

/-- C4 amended: filler counting is per recognized word token, counting
the tokens whose lowercased, punctuation-stripped form equals an entry
of the fixed filler list (so for one-word entries matching is
whole-word and case-insensitive, and liked is not counted for like,
while the two-word entry you know never matches any single token);
filler_percentage = count / word_count times 100, or 0 when
word_count = 0. -/
theorem claim_C4_filler_amended :
    (∀ results : List RecResult,
      (analyze_speech results).filler_count =
        (results.flatMap RecResult.words).countP
          (fun w => fillerWords.contains (normalizeToken w.word))) ∧
    (∀ results : List RecResult,
      (analyze_speech results).filler_percentage =
        if 0 < (analyze_speech results).total_words then
          (((analyze_speech results).filler_count : ℚ) /
            ((analyze_speech results).total_words : ℚ)) * 100
        else 0) ∧
    (analyze_speech likedInput).filler_count = 0 :=
  ⟨analyze_speech_filler_count, analyze_speech_filler_percentage, by decide⟩

/-- The frame-sampling while loop keeps exactly the frames whose index
is a multiple of the stride, stamped with index / fps, in frame
order. -/
theorem sampleLoop_eq {α : Type} (fps : ℚ) (stride : ℤ) (l : List α) (k : ℕ) :
    sampleLoop fps stride l k =
      (List.range l.length).filterMap (fun i =>
        if ((k + i : ℕ) : ℤ) % stride = 0 then
          (l.get? i).map (fun img => (((k + i : ℕ) : ℚ) / fps, img))
        else none) := by
  induction l generalizing k with
  | nil => simp [sampleLoop]
  | cons f rest ih =>
    rw [sampleLoop, List.length_cons, List.range_succ_eq_map, List.filterMap_cons,
      List.filterMap_map, ih (k + 1)]
    by_cases h : ((k : ℤ) % stride = 0)
    · simp only [Nat.add_zero, h, if_pos, List.get?_cons_zero, Option.map_some]
      rw [List.singleton_append]
      congr 1
      apply List.filterMap_congr
      intro i _
      have hk : k + 1 + i = k + Nat.succ i := by omega
      simp [Function.comp, List.get?_cons_succ, hk]
    · simp only [Nat.add_zero, h, if_neg, not_false_iff, List.nil_append]
      apply List.filterMap_congr
      intro i _
      have hk : k + 1 + i = k + Nat.succ i := by omega
      simp [Function.comp, List.get?_cons_succ, hk]

/-- C7 counterexample: the claim says the frame stride is round(frame_rate x interval);
the code computes int(fps * interval_seconds), which truncates. At
fps = 3/2 and interval 1 the code uses stride 1 (sampling frames 0 and
1 of a 2-frame video) while the round-based stride 2 samples only
frame 0, so the two samplers disagree. -/
theorem claim_C7_counterexample :
    extract_video_frames [0, 1] (3/2 : ℚ) 1 ≠ extract_video_frames_spec [0, 1] (3/2 : ℚ) 1 := by
  have h1 : pyInt ((3/2 : ℚ) * 1) = 1 := by norm_num [pyInt]
  have h2 : round ((3/2 : ℚ) * 1) = 2 := by norm_num [round_eq]
  intro hcontra
  simp only [extract_video_frames, extract_video_frames_spec, h1, h2, List.isEmpty_cons,
    Bool.false_eq_true, if_false] at hcontra
  norm_num [sampleLoop] at hcontra

/-- C7 amended: the stride is the truncation int(fps x interval); when
it is at least 1, the sampler yields one (frame_index / fps, image)
pair for each decoded frame whose index is a multiple of the stride,
in frame order, ending with the source. -/
theorem claim_C7_sampler_amended {α : Type} (frames : List α) (fps interval_seconds : ℚ)
    (h : 1 ≤ pyInt (fps * interval_seconds)) :
    extract_video_frames frames fps interval_seconds =
      some ((List.range frames.length).filterMap (fun (i : ℕ) =>
        if ((i : ℕ) : ℤ) % pyInt (fps * interval_seconds) = 0 then
          (frames.get? i).map (fun img => (((i : ℕ) : ℚ) / fps, img))
        else none)) := by
  have hne : pyInt (fps * interval_seconds) ≠ 0 := by omega
  cases frames with
  | nil => simp [extract_video_frames]
  | cons f rest =>
    simp only [extract_video_frames, List.isEmpty_cons, Bool.false_eq_true, if_false, hne,
      if_neg, ite_false]
    rw [sampleLoop_eq]
    simp only [Nat.zero_add]

theorem claim_C7_sampler_amended_witness :
    extract_video_frames [(0 : ℕ), 1] (1 : ℚ) 1 = some [((0 : ℚ), (0 : ℕ)), ((1 : ℚ), 1)] := by
  rw [claim_C7_sampler_amended [(0 : ℕ), 1] 1 1 (by norm_num [pyInt])]
  norm_num [List.range_succ, List.filterMap_cons, pyInt]

/-- C8 counterexample: the claim says per-emotion statistics are computed for each of the
seven emotions of the timeline mapping; the code iterates over the
four keys joy, sorrow, anger and surprise only, so on a non-empty
timeline the statistics dictionary has exactly those four entries and
no under_exposed entry. -/
theorem claim_C8_counterexample :
    (calculate_emotion_statistics [testFrame]).map Prod.fst =
      ["joy", "sorrow", "anger", "surprise"] ∧
    ((calculate_emotion_statistics [testFrame]).lookup "under_exposed").isNone = true := by
  constructor
  · decide
  · decide

/-- C8 amended: the statistics dictionary has exactly the keys joy,
sorrow, anger and surprise on a non-empty timeline, each carrying the
mean, max, min and population standard deviation of that emotion over
the timeline; an empty timeline gives an empty dictionary and an
average detection confidence of 0. -/
theorem claim_C8_emotion_stats_amended (tl : List EmotionFrame) :
    ((calculate_emotion_statistics tl).map Prod.fst =
      if tl.isEmpty then [] else emotionKeys) ∧
    (∀ e, e ∈ emotionKeys → tl ≠ [] →
      (calculate_emotion_statistics tl).lookup e =
        some ⟨listMean (tl.map (fun fr => fr.emotions.get e)),
          listMax (tl.map (fun fr => fr.emotions.get e)),
          listMin (tl.map (fun fr => fr.emotions.get e)),
          np_std (tl.map (fun fr => fr.emotions.get e))⟩) ∧
    (tl = [] → calculate_emotion_statistics tl = [] ∧
      (analyze_facial_expressions tl).average_detection_confidence = 0) := by
  refine ⟨?_, ?_, ?_⟩
  · by_cases h : tl.isEmpty <;> simp [calculate_emotion_statistics, h, emotionKeys]
  · intro e he hne
    have h : tl.isEmpty = false := by simpa [List.isEmpty_iff] using hne
    simp only [calculate_emotion_statistics, h, Bool.false_eq_true, if_false]
    fin_cases he <;> simp [emotionKeys, List.lookup]
  · intro h
    subst h
    simp [calculate_emotion_statistics, analyze_facial_expressions]

theorem claim_C8_emotion_stats_amended_witness :
    ((calculate_emotion_statistics [testFrame]).lookup "joy").isSome = true ∧
    calculate_emotion_statistics [] = [] := by
  constructor
  · rw [(claim_C8_emotion_stats_amended [testFrame]).2.1 "joy" (by decide) (by simp)]
    rfl
  · exact ((claim_C8_emotion_stats_amended []).2.2 rfl).1
